import Mathlib

set_option maxRecDepth 10000

/-!
Verification of the snapshot reconciliation and notification-throttling
engine of `monitor.py` (ClassSearcher2).

The shallow embedding below translates the pure state logic of `main()`
and its helpers into Lean definitions:

* a scraped row (`Row`) is the dict built by the extractors, carrying the
  six text fields plus the `_query` tag (`qkey` here);
* `parse_open_seats` models `parse_open_seats` (regex
  `(\d+)\s+of\s+\d+`, `re.I`, first match);
* `hash_rows` models `hash_rows` (`sha256` of
  `json.dumps(rows, ensure_ascii=False, sort_keys=True)`), with a full
  executable SHA-256 and the JSON serialization of string-valued dicts;
* `buildMap`/`addedL`/`removedL`/`changedL`/`any_change` model the
  NRC-keyed maps and the added/removed/changed partition of lines
  454-465 and the `any_change` flag of line 486;
* `decide_notify` models the notification throttle of lines 533-541;
* `run_monitor` composes the post-collection pipeline of `main` together
  with the `run()` wrapper (fatal extraction errors abort before any
  state is saved);
* `annotate` marks which rows the annotation loop of lines 468-483
  reaches (it iterates `new_map.items()`, so exactly the rows with a
  non-empty NRC that are the last occurrence of their key);
  `display_le` / `sort_rows` / `display_order` model the report
  grouping and ordering of lines 489-502 over those annotated rows,
  and `row_status`/`delta_txt`/`render_marker` the per-row markers of
  lines 468-483 and 510-514 (a row outside `new_map` carries no
  `_status`/`_open_now` keys at all).

Character classes (`\d`, `\s`) and lower-casing are modelled over ASCII,
which covers every text the analysed properties touch.
-/

/-- A scraped section row: the dict produced by the extractors
(`nrc`, `course`, `seats`, `time`, `loc`, `instr`) plus the `_query`
tag attached in the query loop (field `qkey` here). -/
structure Row where
  nrc : String
  course : String
  seats : String
  time : String
  loc : String
  instr : String
  qkey : String
deriving DecidableEq

/-- ASCII decimal digit, the `\d` class of the seat regex. -/
def isDigit (c : Char) : Bool :=
  '0' ≤ c && c ≤ '9'

/-- Python `\s` over ASCII: space, tab, newline, carriage return,
form feed, vertical tab. -/
def isPySpace (c : Char) : Bool :=
  c = ' ' || c = '\t' || c = '\n' || c = '\x0d' || c = '\x0c' || c = '\x0b'

/-- Value of a run of decimal digits, Python `int(...)` on the capture. -/
def digitsToNat (ds : List Char) : Nat :=
  ds.foldl (fun acc c => acc * 10 + (c.toNat - 48)) 0

/-- One attempted match of `(\d+)\s+of\s+\d+` (case-insensitive, so
`[oO][fF]`) anchored at the head of the character list; returns the
first capture group when the pattern matches here.  The character
classes are pairwise disjoint, so greedy matching never backtracks and
maximal munch is exact. -/
def matchSeatsAt (l : List Char) : Option Nat :=
  let ds := l.takeWhile isDigit
  let r1 := l.dropWhile isDigit
  if ds = [] then none
  else
    let sp1 := r1.takeWhile isPySpace
    let r2 := r1.dropWhile isPySpace
    if sp1 = [] then none
    else
      match r2 with
      | o :: f :: r3 =>
        if (o = 'o' || o = 'O') && (f = 'f' || f = 'F') then
          let sp2 := r3.takeWhile isPySpace
          let r4 := r3.dropWhile isPySpace
          if sp2 = [] then none
          else
            match r4 with
            | c :: _ => if isDigit c then some (digitsToNat ds) else none
            | [] => none
        else none
      | _ => none

/-- `re.search`: scan for the leftmost position where the pattern
matches. -/
def seats_search : List Char → Option Nat
  | [] => none
  | c :: rest =>
    match matchSeatsAt (c :: rest) with
    | some n => some n
    | none => seats_search rest

/-- `parse_open_seats` (monitor.py lines 60-65): '2 of 170' → 2; empty
or unrecognized text → `none`. -/
def parse_open_seats (s : String) : Option Nat :=
  if s = "" then none else seats_search s.data

/-- Modelled from the spec's words, for comparison with the code's
parser: the spec claims the pattern `(\d+)\s*of\s*(\d+)` (optional
whitespace, both numbers captured).  Match attempt anchored at the head
of the list. -/
def matchSeatsSpecAt (l : List Char) : Option (Nat × Nat) :=
  let ds := l.takeWhile isDigit
  let r1 := l.dropWhile isDigit
  if ds = [] then none
  else
    let r2 := r1.dropWhile isPySpace
    match r2 with
    | o :: f :: r3 =>
      if (o = 'o' || o = 'O') && (f = 'f' || f = 'F') then
        let r4 := r3.dropWhile isPySpace
        let ds2 := r4.takeWhile isDigit
        if ds2 = [] then none else some (digitsToNat ds, digitsToNat ds2)
      else none
    | _ => none

/-- Modelled from the spec's words: leftmost match of the spec's
pattern `(\d+)\s*of\s*(\d+)`. -/
def seats_search_spec : List Char → Option (Nat × Nat)
  | [] => none
  | c :: rest =>
    match matchSeatsSpecAt (c :: rest) with
    | some p => some p
    | none => seats_search_spec rest

/-- Modelled from the spec's words (spec 4.1): seat parsing with the
pattern `(\d+)\s*of\s*(\d+)`, first match wins, no match → null. -/
def parse_open_seats_spec (s : String) : Option (Nat × Nat) :=
  if s = "" then none else seats_search_spec s.data

/-! ## JSON serialization and content hash (`hash_rows`) -/

/-- Lower-case hexadecimal digit. -/
def hexDigitLower (n : Nat) : Char :=
  if n < 10 then Char.ofNat (48 + n) else Char.ofNat (87 + n)

/-- Escaping of one character inside a JSON string literal, as
`json.dumps(..., ensure_ascii=False)` does it: `"` and `\` are
backslash-escaped, the named control characters use their short
escapes, every other control character below 0x20 becomes `\u00XX`,
everything else is emitted verbatim. -/
def jsonEscapeChar (c : Char) : List Char :=
  if c = '"' then ['\\', '"']
  else if c = '\\' then ['\\', '\\']
  else if c = '\n' then ['\\', 'n']
  else if c = '\x0d' then ['\\', 'r']
  else if c = '\t' then ['\\', 't']
  else if c = '\x08' then ['\\', 'b']
  else if c = '\x0c' then ['\\', 'f']
  else if c.toNat < 32 then
    ['\\', 'u', '0', '0', hexDigitLower (c.toNat / 16), hexDigitLower (c.toNat % 16)]
  else [c]

/-- A JSON string literal for `s`. -/
def jsonString (s : String) : String :=
  "\"" ++ String.mk (s.data.map jsonEscapeChar).flatten ++ "\""

/-- `json.dumps` of one row dict with `sort_keys=True`: the keys
`_query`, `course`, `instr`, `loc`, `nrc`, `seats`, `time` in code-point
order, the default separators `", "` and `": "`. -/
def serialize_row (r : Row) : String :=
  "\x7b" ++ jsonString "_query" ++ ": " ++ jsonString r.qkey ++ ", "
  ++ jsonString "course" ++ ": " ++ jsonString r.course ++ ", "
  ++ jsonString "instr" ++ ": " ++ jsonString r.instr ++ ", "
  ++ jsonString "loc" ++ ": " ++ jsonString r.loc ++ ", "
  ++ jsonString "nrc" ++ ": " ++ jsonString r.nrc ++ ", "
  ++ jsonString "seats" ++ ": " ++ jsonString r.seats ++ ", "
  ++ jsonString "time" ++ ": " ++ jsonString r.time ++ "\x7d"

/-- `json.dumps(rows, ensure_ascii=False, sort_keys=True)`: a JSON
array in list order (`sort_keys` sorts only the keys inside each
object, never the array). -/
def serialize_rows (rows : List Row) : String :=
  "[" ++ String.intercalate ", " (rows.map serialize_row) ++ "]"

/-- UTF-8 encoding of one code point, for `str.encode()`. -/
def utf8Encode (c : Nat) : List Nat :=
  if c < 128 then [c]
  else if c < 2048 then [192 + c / 64, 128 + c % 64]
  else if c < 65536 then [224 + c / 4096, 128 + c / 64 % 64, 128 + c % 64]
  else [240 + c / 262144, 128 + c / 4096 % 64, 128 + c / 64 % 64, 128 + c % 64]

/-- `str.encode()`: the UTF-8 bytes of a string. -/
def strBytes (s : String) : List Nat :=
  (s.data.map (fun c => utf8Encode c.toNat)).flatten

/-! SHA-256, executable over byte lists, word arithmetic in `Nat`
reduced mod 2^32. -/

/-- Truncate to a 32-bit word. -/
def w32 (n : Nat) : Nat := n % 4294967296

/-- Right rotation of a 32-bit word. -/
def rotr32 (r n : Nat) : Nat := w32 (n / 2 ^ r + n % 2 ^ r * 2 ^ (32 - r))

/-- Logical right shift. -/
def shr32 (r n : Nat) : Nat := n / 2 ^ r

/-- Bitwise complement on 32 bits. -/
def bnot32 (n : Nat) : Nat := Nat.xor n 4294967295

/-- Three-way xor. -/
def xor3 (a b c : Nat) : Nat := Nat.xor (Nat.xor a b) c

/-- SHA-256 Σ0. -/
def bsig0 (x : Nat) : Nat := xor3 (rotr32 2 x) (rotr32 13 x) (rotr32 22 x)

/-- SHA-256 Σ1. -/
def bsig1 (x : Nat) : Nat := xor3 (rotr32 6 x) (rotr32 11 x) (rotr32 25 x)

/-- SHA-256 σ0. -/
def ssig0 (x : Nat) : Nat := xor3 (rotr32 7 x) (rotr32 18 x) (shr32 3 x)

/-- SHA-256 σ1. -/
def ssig1 (x : Nat) : Nat := xor3 (rotr32 17 x) (rotr32 19 x) (shr32 10 x)

/-- SHA-256 choose function. -/
def shaCh (x y z : Nat) : Nat := Nat.xor (Nat.land x y) (Nat.land (bnot32 x) z)

/-- SHA-256 majority function. -/
def shaMaj (x y z : Nat) : Nat := xor3 (Nat.land x y) (Nat.land x z) (Nat.land y z)

/-- The 64 SHA-256 round constants (FIPS 180-4), written in decimal. -/
def sha_k : List Nat :=
  [1116352408, 1899447441, 3049323471, 3921009573, 961987163, 1508970993,
   2453635748, 2870763221, 3624381080, 310598401, 607225278, 1426881987,
   1925078388, 2162078206, 2614888103, 3248222580, 3835390401, 4022224774,
   264347078, 604807628, 770255983, 1249150122, 1555081692, 1996064986,
   2554220882, 2821834349, 2952996808, 3210313671, 3336571891, 3584528711,
   113926993, 338241895, 666307205, 773529912, 1294757372, 1396182291,
   1695183700, 1986661051, 2177026350, 2456956037, 2730485921, 2820302411,
   3259730800, 3345764771, 3516065817, 3600352804, 4094571909, 275423344,
   430227734, 506948616, 659060556, 883997877, 958139571, 1322822218,
   1537002063, 1747873779, 1955562222, 2024104815, 2227730452, 2361852424,
   2428436474, 2756734187, 3204031479, 3329325298]

/-- The SHA-256 initial hash state (FIPS 180-4), written in decimal. -/
def sha_h0 : List Nat :=
  [1779033703, 3144134277, 1013904242, 2773480762, 1359893119, 2600822924,
   528734635, 1541459225]

/-- The 8-byte big-endian encoding of the message bit length. -/
def lenBytes64 (b : Nat) : List Nat :=
  [b / 2 ^ 56 % 256, b / 2 ^ 48 % 256, b / 2 ^ 40 % 256, b / 2 ^ 32 % 256,
   b / 2 ^ 24 % 256, b / 2 ^ 16 % 256, b / 2 ^ 8 % 256, b % 256]

/-- SHA-256 padding: append 0x80, zero bytes up to 56 mod 64, then the
bit length. -/
def padMsg (msg : List Nat) : List Nat :=
  msg ++ [128] ++ List.replicate ((119 - msg.length % 64) % 64) 0 ++ lenBytes64 (8 * msg.length)

/-- Split a byte list into 64-byte blocks; the fuel argument (at least
the list length) makes the recursion structural so that the kernel can
evaluate it. -/
def chunks64F : Nat → List Nat → List (List Nat)
  | _, [] => []
  | 0, _ :: _ => []
  | fuel + 1, c :: rest => ((c :: rest).take 64) :: chunks64F fuel ((c :: rest).drop 64)

/-- Split a byte list into 64-byte blocks. -/
def chunks64 (l : List Nat) : List (List Nat) := chunks64F l.length l

/-- The 16 initial 32-bit message-schedule words of one block
(big-endian). -/
def words16 (b : List Nat) : List Nat :=
  (List.range 16).map (fun i =>
    b.getD (4 * i) 0 * 16777216 + b.getD (4 * i + 1) 0 * 65536
    + b.getD (4 * i + 2) 0 * 256 + b.getD (4 * i + 3) 0)

/-- Extend the message schedule by `k` more words. -/
def sha_ws (w : List Nat) : Nat → List Nat
  | 0 => w
  | k + 1 =>
    sha_ws (w ++ [w32 (ssig1 (w.getD (w.length - 2) 0) + w.getD (w.length - 7) 0
      + ssig0 (w.getD (w.length - 15) 0) + w.getD (w.length - 16) 0)]) k

/-- One compression round: state `[a,b,c,d,e,f,g,h]`, input `k+w`. -/
def shaRound (st : List Nat) (kw : Nat) : List Nat :=
  match st with
  | [a, b, c, d, e, f, g, h] =>
    let t1 := w32 (h + bsig1 e + shaCh e f g + kw)
    let t2 := w32 (bsig0 a + shaMaj a b c)
    [w32 (t1 + t2), a, b, c, w32 (d + t1), e, f, g]
  | st => st

/-- Process one 64-byte block. -/
def sha256block (hs : List Nat) (block : List Nat) : List Nat :=
  let w := sha_ws (words16 block) 48
  let st := (List.zipWith (fun k x => w32 (k + x)) sha_k w).foldl shaRound hs
  List.zipWith (fun a b => w32 (a + b)) hs st

/-- The eight 32-bit words of the SHA-256 digest of a byte list. -/
def sha256words (msg : List Nat) : List Nat :=
  (chunks64 (padMsg msg)).foldl sha256block sha_h0

/-- Eight lower-case hex digits of a 32-bit word. -/
def hex8 (n : Nat) : String :=
  String.mk ((List.range 8).map (fun i => hexDigitLower (n / 16 ^ (7 - i) % 16)))

/-- `hashlib.sha256(...).hexdigest()` of a byte list. -/
def sha256hex (msg : List Nat) : String :=
  String.join ((sha256words msg).map hex8)

/-- `hash_rows` (monitor.py lines 35-36): sha256 hexdigest of
`json.dumps(rows, ensure_ascii=False, sort_keys=True).encode()`. -/
def hash_rows (rows : List Row) : String :=
  sha256hex (strBytes (serialize_rows rows))

/-! ## Location filter -/

/-- Is `pre` an initial segment of `l`. -/
def leadsWith : List Char → List Char → Bool
  | [], _ => true
  | _ :: _, [] => false
  | a :: as, b :: bs => a = b && leadsWith as bs

/-- Python's `needle in hay` substring test. -/
def hasSub (needle : List Char) : List Char → Bool
  | [] => needle.isEmpty
  | c :: rest => leadsWith needle (c :: rest) || hasSub needle rest

/-- ASCII lower-casing, Python `str.lower()`. -/
def lowerStr (s : String) : String :=
  String.mk (s.data.map Char.toLower)

/-- The location-exclusion filter of line 444-445: keep a row unless
the (already lower-cased, stripped) `LOCATION_EXCLUDE` text occurs in
the lower-cased `loc` field; `excl = none` models an empty
`LOCATION_EXCLUDE`. -/
def location_filter (excl : Option String) (rows : List Row) : List Row :=
  match excl with
  | none => rows
  | some e => rows.filter (fun r => !(hasSub e.data (lowerStr r.loc).data))

/-! ## NRC-keyed maps and the added/removed/changed partition -/

/-- First-match lookup in an association list (what indexing a Python
dict observes once keys are unique). -/
def lookupR : List (String × Row) → String → Option Row
  | [], _ => none
  | p :: ps, k => if p.1 = k then some p.2 else lookupR ps k

/-- Does the association list carry the key. -/
def keyMem (m : List (String × Row)) (k : String) : Bool :=
  m.any (fun p => p.1 = k)

/-- One `dict` write: a later write to an existing key replaces the
value in place (the key keeps its first-insertion position), a new key
is appended. -/
def insertLWW (m : List (String × Row)) (k : String) (v : Row) : List (String × Row) :=
  if keyMem m k then m.map (fun p => if p.1 = k then (k, v) else p)
  else m ++ [(k, v)]

/-- The dict comprehension of lines 455-456:
`{r.get("nrc"): r for r in rows if r.get("nrc")}` — rows with an empty
NRC are skipped, duplicate NRCs resolve last-write-wins. -/
def buildMap (rows : List Row) : List (String × Row) :=
  rows.foldl (fun m r => if r.nrc = "" then m else insertLWW m r.nrc r) []

/-- `added` (line 458): current keys absent from the previous map,
mapped to the current records. -/
def addedL (oldRows newRows : List Row) : List Row :=
  ((buildMap newRows).filter (fun p => lookupR (buildMap oldRows) p.1 = none)).map (·.2)

/-- `removed` (line 459): previous keys absent from the current map,
mapped to the previous records. -/
def removedL (oldRows newRows : List Row) : List Row :=
  ((buildMap oldRows).filter (fun p => lookupR (buildMap newRows) p.1 = none)).map (·.2)

/-- The compared attribute tuple of line 464: the raw `seats` text and
the `time`, `loc`, `instr` fields. -/
def chTuple (r : Row) : String × String × String × String :=
  (r.seats, r.time, r.loc, r.instr)

/-- `changed` (lines 460-465): for each key present in both maps, the
pair (previous, current) when the compared tuple differs.  The Python
loop iterates an unordered set intersection; we fix the current map's
order, and no verified property depends on the order of this list. -/
def changedL (oldRows newRows : List Row) : List (Row × Row) :=
  (buildMap newRows).filterMap (fun p =>
    match lookupR (buildMap oldRows) p.1 with
    | some a => if chTuple a ≠ chTuple p.2 then some (a, p.2) else none
    | none => none)

/-- `any_change` (line 486): `bool(added or removed or changed)`. -/
def any_change (oldRows newRows : List Row) : Bool :=
  !(addedL oldRows newRows).isEmpty || !(removedL oldRows newRows).isEmpty
    || !(changedL oldRows newRows).isEmpty

/-! ## Notification throttle and the composed run -/

/-- The notification decision of lines 533-541, returning
`(should_notify, new last_nochange_ts)`: on any change always notify
and reset the checkpoint to `now`; otherwise notify only when
`now - last_nochange_ts >= interval`, updating the checkpoint exactly
on send. -/
def decide_notify (any_ch : Bool) (now last interval : Int) : Bool × Int :=
  if any_ch then (true, now)
  else if interval ≤ now - last then (true, now) else (false, last)

/-- Outcome of one run: the snapshot rows and throttle checkpoint on
disk after the process exits, whether the exit status was zero, and
whether a notification was dispatched. -/
structure RunResult where
  storedRows : List Row
  storedPing : Int
  exitZero : Bool
  notified : Bool
deriving DecidableEq

/-- The post-collection pipeline of `main` (lines 443-548) together
with the `run()` wrapper (lines 550-555): a collection failure (the
`RuntimeError` of line 433 or any extraction exception) propagates out
of `main`, `run` exits with status 1, and neither `state.json` nor
`notify_state.json` has been written; a successful collection is
filtered, diffed against the stored rows, drives the notification
decision, and always overwrites the stored snapshot. -/
def run_monitor (collect : Except String (List Row)) (excl : Option String)
    (oldRows : List Row) (lastPing now interval : Int) : RunResult :=
  match collect with
  | .error _ => ⟨oldRows, lastPing, false, false⟩
  | .ok rows =>
    let all := location_filter excl rows
    let d := decide_notify (any_change oldRows all) now lastPing interval
    ⟨all, d.2, true, d.1⟩

/-! ## Report rendering: ordering, markers, delta annotation -/

/-- The first sort-key component of line 502,
`-(x.get("_open_now") or -1)`: Python's `or` falls through on `None`
and on `0` alike, so an unparsable seat text and a parsed count of `0`
both key as `-(-1) = 1`, after every positive count's negation. -/
def open_key (o : Option Nat) : Int :=
  match o with
  | none => 1
  | some n => if n = 0 then 1 else -(n : Int)

/-- Does a later collected row carry the same NRC (so the dict
comprehension of line 456 overwrites this row's entry and the
annotation loop mutates the later object instead). -/
def shadowed (r : Row) (rest : List Row) : Bool :=
  rest.any (fun x => x.nrc = r.nrc)

/-- The annotation pass of lines 468-483 as the renderer observes it:
the loop iterates `new_map.items()` and mutates exactly those row
dicts, so a row of `new_state["rows"]` carries the
`_open_now`/`_delta`/`_status`/`_update` keys iff its NRC is non-empty
and no later row shadows it (it is the object stored in `new_map`).
Each row is paired with that flag, in list order. -/
def annotate : List Row → List (Row × Bool)
  | [] => []
  | r :: rest => (r, !(r.nrc = "") && !(shadowed r rest)) :: annotate rest

/-- The first sort-key component of line 502,
`-(x.get("_open_now") or -1)`, for a displayed row: an annotated row
keys by `open_key` of its parsed count, while an unannotated row (empty
NRC or shadowed duplicate) has no `_open_now` key at all, `get` reads
`None`, and it keys as 1 regardless of its seats text. -/
def disp_key (p : Row × Bool) : Int :=
  open_key (if p.2 then parse_open_seats p.1.seats else none)

/-- Python's `<=` on strings: lexicographic comparison of code
points. -/
def lexLe : List Char → List Char → Bool
  | [], _ => true
  | _ :: _, [] => false
  | a :: as, b :: bs =>
    if a.toNat < b.toNat then true
    else if b.toNat < a.toNat then false
    else lexLe as bs

/-- The display ordering of line 502: ascending in the key pair
`(-(open_now or -1), str(nrc))` over annotated rows. -/
def display_le (a b : Row × Bool) : Prop :=
  disp_key a < disp_key b ∨ (disp_key a = disp_key b ∧ lexLe a.1.nrc.data b.1.nrc.data = true)

instance : DecidableRel display_le := fun a b =>
  inferInstanceAs (Decidable (_ ∨ _ ∧ _))

/-- `sorted(rows, key=...)` of line 502; Python's sort is stable and
`List.insertionSort` with a reflexive total preorder is the stable
sort. -/
def sort_rows (rows : List (Row × Bool)) : List (Row × Bool) :=
  List.insertionSort display_le rows

/-- The group keys of the `by_query` dict of lines 490-492 in
first-appearance order. -/
def group_keys (rows : List Row) : List String :=
  rows.foldl (fun ks r => if ks.contains r.qkey then ks else ks ++ [r.qkey]) []

/-- The rendered report body structure of lines 489-502: one group per
originating query in first-appearance order, each group holding the
annotated rows of that query (grouping happens after the annotation
pass) sorted by the display order. -/
def display_order (rows : List Row) : List (String × List (Row × Bool)) :=
  (group_keys rows).map
    (fun q => (q, sort_rows ((annotate rows).filter (fun p => p.1.qkey = q))))

/-- The status marker of line 477:
`"🟢" if (open_now is not None and open_now > 0) else "🔴"`. -/
def row_status (o : Option Nat) : String :=
  match o with
  | some n => if 0 < n then "🟢" else "🔴"
  | none => "🔴"

/-- The per-row availability delta of lines 470-474: defined only when
both the current and the previous seat text parse. -/
def delta_of (openNow openPrev : Option Nat) : Option Int :=
  match openNow, openPrev with
  | some a, some b => some ((a : Int) - b)
  | _, _ => none

/-- Python's `f"{d:+d}"`: always-signed decimal rendering. -/
def fmt_signed (d : Int) : String :=
  if 0 ≤ d then "+" ++ toString d.toNat else "-" ++ toString (-d).toNat

/-- The delta annotation of line 511:
`f"(Δ{delta:+d})" if isinstance(delta,int) and delta!=0 else "(same)"`. -/
def delta_txt (d : Option Int) : String :=
  match d with
  | some d => if d ≠ 0 then "(Δ" ++ fmt_signed d ++ ")" else "(same)"
  | none => "(same)"

/-- Python `str.strip()` over ASCII whitespace. -/
def pyStrip (s : String) : String :=
  String.mk (((s.data.dropWhile isPySpace).reverse.dropWhile isPySpace).reverse)

/-- The `_update` marker of line 479: 🟠 exactly when the availability
delta is defined and non-zero. -/
def update_mark (d : Option Int) : String :=
  match d with
  | some d => if d ≠ 0 then "🟠" else ""
  | none => ""

/-- The marker prefix of line 513,
`f'{r.get("_status","")} {r.get("_update","")}'.strip()`: an annotated
row carries the stored `_status` of line 477 and `_update` of line 479,
while a row the annotation pass skipped carries neither key, both
`get`s fall back to the empty string, and the whole prefix strips to
empty. -/
def render_marker (ann : Bool) (seats : String) (delta : Option Int) : String :=
  pyStrip ((if ann then row_status (parse_open_seats seats) else "")
    ++ " " ++ (if ann then update_mark delta else ""))

/-! ## Trigger policy (spec 4.4) -/

/-- Modelled from the spec: the Trigger Policy configuration of
spec 4.4.  No trigger configuration exists anywhere in
`src/monitor.py`; the spec's recognized configuration is
`zero_to_positive_enabled` and a non-negative `drop_threshold`. -/
structure TriggerConfig where
  zero_to_positive_enabled : Bool
  drop_threshold : Nat

/-- Modelled from the spec: the `is_notable(previous_open,
current_open, config)` predicate of spec 4.4, absent from
`src/monitor.py`.  It fires when `zero_to_positive_enabled` and
`previous_open == 0 and current_open > 0`, or when
`previous_open - current_open >= drop_threshold`. -/
def is_notable (prev curr : Nat) (cfg : TriggerConfig) : Bool :=
  (cfg.zero_to_positive_enabled && prev == 0 && curr > 0)
    || ((prev : Int) - (curr : Int) ≥ (cfg.drop_threshold : Int))

/-! ## Concrete rows used in the analyses -/

/-- A stored row whose location will be the only edited field. -/
def c1_old : Row := ⟨"11111", "CSE 412", "2 of 30", "9:00 AM", "Tempe", "Smith", "CSE412-Spring 2026"⟩

/-- The same section with only `loc` changed, seats text identical. -/
def c1_new : Row := ⟨"11111", "CSE 412", "2 of 30", "9:00 AM", "Polytechnic", "Smith", "CSE412-Spring 2026"⟩

/-- A previously stored row, present before an empty collection. -/
def c4_row : Row := ⟨"33333", "CSE 412", "5 of 40", "", "", "", "CSE412-Spring 2026"⟩

/-- First of two distinct rows for the hash-order analysis. -/
def c5_r1 : Row := ⟨"1", "a", "", "", "", "", "q"⟩

/-- Second of two distinct rows for the hash-order analysis. -/
def c5_r2 : Row := ⟨"2", "b", "", "", "", "", "q"⟩

/-- A row whose raw seats text will change without a parsed change. -/
def c6_old : Row := ⟨"22222", "", "2 of 170", "", "", "", "q"⟩

/-- The same section with seats text `2 of 171`: the raw text differs,
the parsed open count is still 2. -/
def c6_new : Row := ⟨"22222", "", "2 of 171", "", "", "", "q"⟩

/-- First of two rows sharing the NRC `12345`. -/
def c8_r1 : Row := ⟨"12345", "", "1 of 5", "", "", "", "q"⟩

/-- Second row with the same NRC `12345`. -/
def c8_r2 : Row := ⟨"12345", "", "2 of 5", "", "", "", "q"⟩

/-- A row with a parsed open count of 0. -/
def c9_zero : Row := ⟨"2222", "", "0 of 30", "", "", "", "q"⟩

/-- A row whose seats text does not parse. -/
def c9_null : Row := ⟨"1111", "", "TBD", "", "", "", "q"⟩

/-- A row with an empty NRC and a positive parsed count: it is never
stored in the diff map, so the annotation pass skips it. -/
def c9_empty : Row := ⟨"", "", "9 of 10", "", "", "", "q"⟩

/-- A keyed row with a smaller positive parsed count. -/
def c9_three : Row := ⟨"5", "", "3 of 10", "", "", "", "q"⟩

/-- A displayed row with an empty NRC whose seats text parses to 9:
outside the diff map, it renders without any status marker. -/
def c10_row : Row := ⟨"", "", "9 of 10", "", "", "", "q"⟩

/-! ## Helper lemmas -/

theorem bnot_isEmpty_iff {α : Type} (l : List α) : (!l.isEmpty) = true ↔ l ≠ [] := by
  cases l <;> simp

theorem lookupR_insertLWW_self (m : List (String × Row)) (k : String) (v : Row) :
    lookupR (insertLWW m k v) k = some v := by
  unfold insertLWW
  split
  case isTrue h =>
    induction m with
    | nil => simp [keyMem] at h
    | cons p ps ih =>
      by_cases hp : p.1 = k
      · simp [lookupR, hp]
      · have hps : keyMem ps k = true := by
          simp [keyMem] at h ⊢
          rcases h with h | h
          · exact absurd h hp
          · exact h
        simpa [lookupR, hp] using ih hps
  case isFalse h =>
    induction m with
    | nil => simp [lookupR]
    | cons p ps ih =>
      have hp : ¬ p.1 = k := by
        intro hc
        exact h (by simp [keyMem, hc])
      have hps : ¬ keyMem ps k = true := by
        intro hc
        exact h (by simp [keyMem] at hc ⊢; exact Or.inr hc)
      simpa [lookupR, hp] using ih hps

theorem lookupR_insertLWW_ne (m : List (String × Row)) (k' k : String) (v : Row)
    (hne : k' ≠ k) : lookupR (insertLWW m k' v) k = lookupR m k := by
  unfold insertLWW
  split
  case isTrue h =>
    clear h
    induction m with
    | nil => simp
    | cons p ps ih =>
      by_cases hp : p.1 = k'
      · simp [lookupR, hp, hne, ih]
      · simp [lookupR, hp, ih]
  case isFalse h =>
    clear h
    induction m with
    | nil => simp [lookupR, hne]
    | cons p ps ih => by_cases hp : p.1 = k <;> simp [lookupR, hp, ih]

theorem getLast?_cons_eq {α : Type} (a : α) (l : List α) :
    (a :: l).getLast? = match l.getLast? with
      | some x => some x
      | none => some a := by
  induction l with
  | nil => rfl
  | cons b bs ih => cases h : (b :: bs).getLast? <;> simp_all [List.getLast?_cons_cons]

theorem buildMap_foldl_lookup (rows : List Row) (k : String) (hk : k ≠ "") :
    ∀ m : List (String × Row),
      lookupR (rows.foldl (fun m r => if r.nrc = "" then m else insertLWW m r.nrc r) m) k
        = match (rows.filter (fun r => r.nrc = k)).getLast? with
          | some s => some s
          | none => lookupR m k := by
  induction rows with
  | nil => intro m; simp
  | cons r rows ih =>
    intro m
    by_cases hr : r.nrc = k
    · have hne : ¬ r.nrc = "" := hr ▸ hk
      rw [List.foldl_cons, if_neg hne, ih (insertLWW m r.nrc r),
        List.filter_cons_of_pos (by simp [hr]), getLast?_cons_eq]
      cases h : (rows.filter (fun r => r.nrc = k)).getLast? with
      | some s => simp
      | none => simp [hr, lookupR_insertLWW_self]
    · rw [List.foldl_cons, List.filter_cons_of_neg (by simp [hr])]
      by_cases he : r.nrc = ""
      · rw [if_pos he, ih m]
      · rw [if_neg he, ih (insertLWW m r.nrc r),
          lookupR_insertLWW_ne m r.nrc k r hr]

/-- Last-write-wins: looking an NRC up in the diff map yields the last
row of the collection carrying that NRC. -/
theorem buildMap_lookup_last (rows : List Row) (k : String) (hk : k ≠ "") :
    lookupR (buildMap rows) k = (rows.filter (fun r => r.nrc = k)).getLast? := by
  rw [buildMap, buildMap_foldl_lookup rows k hk []]
  cases (rows.filter (fun r => r.nrc = k)).getLast? <;> simp [lookupR]

theorem keys_insertLWW (m : List (String × Row)) (k : String) (v : Row) :
    (insertLWW m k v).map Prod.fst
      = if keyMem m k then m.map Prod.fst else m.map Prod.fst ++ [k] := by
  unfold insertLWW
  split
  case isTrue h =>
    simp only [List.map_map, if_pos h]
    apply List.map_congr_left
    intro p _
    by_cases hp : p.1 = k <;> simp [hp]
  case isFalse h => simp [h]

theorem nodup_keys_buildMap (rows : List Row) :
    ∀ m : List (String × Row), (m.map Prod.fst).Nodup →
      ((rows.foldl (fun m r => if r.nrc = "" then m else insertLWW m r.nrc r) m).map
        Prod.fst).Nodup := by
  induction rows with
  | nil => intro m hm; simpa using hm
  | cons r rows ih =>
    intro m hm
    rw [List.foldl_cons]
    by_cases he : r.nrc = ""
    · rw [if_pos he]; exact ih m hm
    · rw [if_neg he]
      apply ih
      rw [keys_insertLWW]
      by_cases hmem : keyMem m r.nrc
      · simpa [hmem] using hm
      · have : r.nrc ∉ m.map Prod.fst := by
          intro hc
          rcases List.mem_map.mp hc with ⟨p, hp, hfst⟩
          apply hmem
          simp only [keyMem, List.any_eq_true]
          exact ⟨p, hp, by simp [hfst]⟩
        simp [hmem, List.nodup_append, hm, this]

theorem mem_iff_lookupR (m : List (String × Row)) (hm : (m.map Prod.fst).Nodup)
    (k : String) (v : Row) : (k, v) ∈ m ↔ lookupR m k = some v := by
  induction m with
  | nil => simp [lookupR]
  | cons p ps ih =>
    have hps : (ps.map Prod.fst).Nodup := (List.nodup_cons.mp hm).2
    have hnot : p.1 ∉ ps.map Prod.fst := (List.nodup_cons.mp hm).1
    constructor
    · intro hmem
      rcases List.mem_cons.mp hmem with h | h
      · simp [lookupR, ← h]
      · have hk : k ∈ ps.map Prod.fst := List.mem_map.mpr ⟨(k, v), h, rfl⟩
        have hne : ¬ p.1 = k := fun hc => hnot (hc ▸ hk)
        simpa [lookupR, hne] using (ih hps).mp h
    · intro hl
      rw [lookupR] at hl
      by_cases hp : p.1 = k
      · rw [if_pos hp] at hl
        have : p = (k, v) := by
          cases p
          simp only [Option.some.injEq] at hl
          simp_all
        simp [this]
      · rw [if_neg hp] at hl
        exact List.mem_cons.mpr (Or.inr ((ih hps).mpr hl))

theorem buildMap_nodup (rows : List Row) : ((buildMap rows).map Prod.fst).Nodup :=
  nodup_keys_buildMap rows [] (by simp)

theorem mem_buildMap_iff (rows : List Row) (k : String) (v : Row) :
    (k, v) ∈ buildMap rows ↔ lookupR (buildMap rows) k = some v :=
  mem_iff_lookupR (buildMap rows) (buildMap_nodup rows) k v

/-- Membership in the changed partition, in terms of lookups in the two
keyed maps. -/
theorem mem_changedL (oldRows newRows : List Row) (a b : Row) :
    (a, b) ∈ changedL oldRows newRows ↔
      ∃ k, lookupR (buildMap oldRows) k = some a
        ∧ lookupR (buildMap newRows) k = some b
        ∧ chTuple a ≠ chTuple b := by
  rw [changedL, List.mem_filterMap]
  constructor
  · rintro ⟨p, hp, hf⟩
    rcases h : lookupR (buildMap oldRows) p.1 with _ | x
    · rw [h] at hf; cases hf
    · rw [h] at hf
      have hf' : (if chTuple x ≠ chTuple p.2 then some (x, p.2) else none)
          = some (a, b) := hf
      by_cases hne : chTuple x ≠ chTuple p.2
      · rw [if_pos hne] at hf'
        injection hf' with hf'
        have hx : x = a := congrArg Prod.fst hf'
        have hb : p.2 = b := congrArg Prod.snd hf'
        refine ⟨p.1, hx ▸ h, ?_, hx ▸ hb ▸ hne⟩
        rw [← hb]
        exact (mem_buildMap_iff newRows p.1 p.2).mp (by cases p; exact hp)
      · rw [if_neg hne] at hf'; cases hf'
  · rintro ⟨k, hold, hnew, hne⟩
    refine ⟨(k, b), (mem_buildMap_iff newRows k b).mpr hnew, ?_⟩
    show (match lookupR (buildMap oldRows) k with
      | some a => if chTuple a ≠ chTuple b then some (a, b) else none
      | none => none) = some (a, b)
    rw [hold]
    show (if chTuple a ≠ chTuple b then some (a, b) else none) = some (a, b)
    rw [if_pos hne]

/-- Totality of the Python string comparison. -/
theorem lexLe_total : ∀ x y : List Char, lexLe x y = true ∨ lexLe y x = true := by
  intro x
  induction x with
  | nil => intro y; left; rfl
  | cons a as ih =>
    intro y
    cases y with
    | nil => right; rfl
    | cons b bs =>
      rcases Nat.lt_trichotomy a.toNat b.toNat with h | h | h
      · left; simp [lexLe, h]
      · have h' : ¬ a.toNat < b.toNat := by omega
        have h'' : ¬ b.toNat < a.toNat := by omega
        rcases ih bs with hl | hl
        · left; simp [lexLe, h', h'', hl]
        · right; simp [lexLe, h', h'', hl]
      · right; simp [lexLe, h]

/-- Transitivity of the Python string comparison. -/
theorem lexLe_trans : ∀ x y z : List Char,
    lexLe x y = true → lexLe y z = true → lexLe x z = true := by
  intro x
  induction x with
  | nil => intro y z _ _; rfl
  | cons a as ih =>
    intro y z hxy hyz
    cases y with
    | nil => simp [lexLe] at hxy
    | cons b bs =>
      cases z with
      | nil => simp [lexLe] at hyz
      | cons c cs =>
        rw [lexLe] at hxy hyz ⊢
        by_cases h1 : a.toNat < b.toNat
        · by_cases h2 : b.toNat < c.toNat
          · simp [show a.toNat < c.toNat by omega]
          · rw [if_pos h1] at hxy
            by_cases h3 : c.toNat < b.toNat
            · rw [if_neg h2, if_pos h3] at hyz; cases hyz
            · simp [show a.toNat < c.toNat by omega]
        · by_cases h1' : b.toNat < a.toNat
          · rw [if_neg h1, if_pos h1'] at hxy; cases hxy
          · have hab : a.toNat = b.toNat := by omega
            rw [if_neg h1, if_neg h1'] at hxy
            by_cases h2 : b.toNat < c.toNat
            · simp [show a.toNat < c.toNat by omega]
            · by_cases h3 : c.toNat < b.toNat
              · rw [if_pos h3] at hyz
                rw [if_neg h2] at hyz
                cases hyz
              · rw [if_neg h2, if_neg h3] at hyz
                have hne1 : ¬ a.toNat < c.toNat := by omega
                have hne2 : ¬ c.toNat < a.toNat := by omega
                rw [if_neg hne1, if_neg hne2]
                exact ih bs cs hxy hyz

instance : IsTotal (Row × Bool) display_le :=
  ⟨fun a b => by
    rcases lt_trichotomy (disp_key a) (disp_key b) with h | h | h
    · exact Or.inl (Or.inl h)
    · rcases lexLe_total a.1.nrc.data b.1.nrc.data with hl | hl
      · exact Or.inl (Or.inr ⟨h, hl⟩)
      · exact Or.inr (Or.inr ⟨h.symm, hl⟩)
    · exact Or.inr (Or.inl h)⟩

instance : IsTrans (Row × Bool) display_le :=
  ⟨fun a b c hab hbc => by
    rcases hab with h1 | ⟨h1, l1⟩ <;> rcases hbc with h2 | ⟨h2, l2⟩
    · exact Or.inl (lt_trans h1 h2)
    · exact Or.inl (h2 ▸ h1)
    · exact Or.inl (h1 ▸ h2)
    · exact Or.inr ⟨h1.trans h2, lexLe_trans _ _ _ l1 l2⟩⟩

/-- `matchSeatsAt` finds nothing in the empty list. -/
theorem matchSeatsAt_nil : matchSeatsAt [] = none := rfl

/-- `seats_search` returns the capture of the leftmost position where
the pattern matches. -/
theorem seats_search_iff (l : List Char) (n : Nat) :
    seats_search l = some n ↔
      ∃ i, matchSeatsAt (l.drop i) = some n
        ∧ ∀ j, j < i → matchSeatsAt (l.drop j) = none := by
  induction l with
  | nil =>
    simp only [seats_search, List.drop_nil, matchSeatsAt_nil]
    constructor
    · intro h; cases h
    · rintro ⟨i, hi, _⟩; cases hi
  | cons c rest ih =>
    rw [seats_search]
    cases h : matchSeatsAt (c :: rest) with
    | some m =>
      constructor
      · intro hm
        injection hm with hm
        exact ⟨0, by simpa [h] using congrArg some hm, by omega⟩
      · rintro ⟨i, hi, hall⟩
        cases i with
        | zero => rw [List.drop_zero] at hi; rw [h] at hi; exact hi
        | succ i' =>
          have := hall 0 (by omega)
          rw [List.drop_zero, h] at this
          cases this
    | none =>
      rw [ih]
      constructor
      · rintro ⟨i, hi, hall⟩
        refine ⟨i + 1, by simpa using hi, ?_⟩
        intro j hj
        cases j with
        | zero => simpa using h
        | succ j' => simpa using hall j' (by omega)
      · rintro ⟨i, hi, hall⟩
        cases i with
        | zero => rw [List.drop_zero, h] at hi; cases hi
        | succ i' =>
          refine ⟨i', by simpa using hi, ?_⟩
          intro j hj
          simpa using hall (j + 1) (by omega)

/-! ## Claim analyses -/

/-- Claim C1, counterexample: a record present in both snapshots whose
location alone changed (seats text, time, instructor identical, nothing
added or removed) already makes the run-level `any_change` flag true,
because line 486 computes `bool(added or removed or changed)` and the
changed partition contains every attribute edit; the claim's assertion
that such an edit does not by itself set `any_change` is false on the
code. -/
theorem C1_counterexample :
    addedL [c1_old] [c1_new] = [] ∧ removedL [c1_old] [c1_new] = []
    ∧ c1_old.nrc = c1_new.nrc ∧ c1_old.seats = c1_new.seats
    ∧ c1_old.time = c1_new.time ∧ c1_old.instr = c1_new.instr
    ∧ c1_old.loc ≠ c1_new.loc
    ∧ any_change [c1_old] [c1_new] = true := by
  refine ⟨by decide, by decide, rfl, rfl, rfl, rfl, by decide, by decide⟩

/-- Claim C1 (amended): the run-level `any_change` flag is true exactly
when the added list, the removed list, or the changed list is
non-empty; in particular any pair in the changed partition — including
a location-, instructor-, or time-only edit — makes `any_change`
true. -/
theorem C1_any_change_characterization (oldRows newRows : List Row) :
    (any_change oldRows newRows = true ↔
      addedL oldRows newRows ≠ [] ∨ removedL oldRows newRows ≠ []
        ∨ changedL oldRows newRows ≠ [])
    ∧ (∀ a b, (a, b) ∈ changedL oldRows newRows →
        any_change oldRows newRows = true) := by
  have hiff : any_change oldRows newRows = true ↔
      addedL oldRows newRows ≠ [] ∨ removedL oldRows newRows ≠ []
        ∨ changedL oldRows newRows ≠ [] := by
    rw [any_change, Bool.or_eq_true, Bool.or_eq_true,
      bnot_isEmpty_iff, bnot_isEmpty_iff, bnot_isEmpty_iff, or_assoc]
  refine ⟨hiff, fun a b hmem => ?_⟩
  exact hiff.mpr (Or.inr (Or.inr (List.ne_nil_of_mem hmem)))

/-- Claim C1 witness: the amended characterization applied to the
concrete location-only edit. -/
theorem C1_witness : any_change [c1_old] [c1_new] = true :=
  (C1_any_change_characterization [c1_old] [c1_new]).2 c1_old c1_new (by decide)

/-- Claim C2: the Trigger Policy predicate (modelled from the spec,
since no trigger configuration exists in src/monitor.py) is true when
zero-to-positive is enabled and the open count moves from 0 to
positive, and when the drop reaches the threshold; concretely 0→3 with
zero-to-positive is notable, 10→4 at threshold 5 is notable, 10→7 at
threshold 5 is not. -/
theorem C2_is_notable_trigger (cfg : TriggerConfig) (prev curr : Nat) :
    (cfg.zero_to_positive_enabled = true → prev = 0 → 0 < curr →
      is_notable prev curr cfg = true)
    ∧ ((cfg.drop_threshold : Int) ≤ (prev : Int) - (curr : Int) →
      is_notable prev curr cfg = true)
    ∧ is_notable 0 3 ⟨true, cfg.drop_threshold⟩ = true
    ∧ is_notable 10 4 ⟨cfg.zero_to_positive_enabled, 5⟩ = true
    ∧ is_notable 10 7 ⟨cfg.zero_to_positive_enabled, 5⟩ = false := by
  refine ⟨?_, ?_, ?_, ?_, ?_⟩
  · intro hz hp hc
    subst hp
    simp [is_notable, hz, hc]
  · intro hd
    simp [is_notable, hd]
  · simp [is_notable]
  · simp [is_notable]
  · simp [is_notable]

/-- Claim C2 witness: the zero-to-positive branch at the spec's own
example (previous 0, current 3). -/
theorem C2_witness : is_notable 0 3 ⟨true, 2⟩ = true :=
  (C2_is_notable_trigger ⟨true, 2⟩ 0 3).1 rfl rfl (by omega)

/-- Claim C3: with a change, `decide_notify` always sends and resets
the checkpoint to now; with no change it sends exactly when
`now - last >= interval`, updating the checkpoint on send and leaving
it untouched otherwise; at interval 3600 a no-change run 3599 seconds
after the checkpoint is suppressed with the checkpoint unchanged, and
one 3601 seconds after it sends and moves the checkpoint to now. -/
theorem C3_throttle (now last interval : Int) :
    decide_notify true now last interval = (true, now)
    ∧ ((decide_notify false now last interval).1 = true ↔ interval ≤ now - last)
    ∧ (interval ≤ now - last →
        decide_notify false now last interval = (true, now))
    ∧ (now - last < interval →
        decide_notify false now last interval = (false, last))
    ∧ decide_notify false (last + 3599) last 3600 = (false, last)
    ∧ decide_notify false (last + 3601) last 3600 = (true, last + 3601) := by
  refine ⟨rfl, ?_, ?_, ?_, ?_, ?_⟩
  · rw [decide_notify]
    by_cases h : interval ≤ now - last <;> simp [h]
  · intro h
    rw [decide_notify]
    simp [h]
  · intro h
    rw [decide_notify]
    simp [show ¬ interval ≤ now - last by omega]
  · rw [decide_notify]
    simp [show ¬ (3600 : Int) ≤ last + 3599 - last by omega]
  · rw [decide_notify]
    simp [show (3600 : Int) ≤ last + 3601 - last by omega]

/-- Claim C3 witness: the send branch of the throttle at the concrete
instant 3601 seconds past a checkpoint at 0. -/
theorem C3_witness : decide_notify false 3601 0 3600 = (true, 3601) :=
  (C3_throttle 3601 0 3600).2.2.1 (by omega)

/-- Claim C4, counterexample: a collection that succeeds with zero rows
is not fatal — the run finishes with exit status 0 and overwrites the
stored snapshot (previously one row) with the empty row list, so "raises
an error or produces no usable data implies non-zero exit and unchanged
snapshot" is false on the code. -/
theorem C4_counterexample :
    (run_monitor (.ok []) none [c4_row] 0 500 3600).storedRows = []
    ∧ [c4_row] ≠ ([] : List Row)
    ∧ (run_monitor (.ok []) none [c4_row] 0 500 3600).exitZero = true := by
  refine ⟨by decide, by decide, by decide⟩

/-- Claim C4 (amended): if the Row Source raises, the run exits
non-zero and every piece of persisted state — snapshot rows and
throttle checkpoint — is exactly what it was before the run; but a
collection that succeeds with an empty row list completes with exit
status 0 and overwrites the snapshot with the empty record set. -/
theorem C4_fatal_path (e : String) (excl : Option String) (old : List Row)
    (ping now interval : Int) :
    run_monitor (.error e) excl old ping now interval
      = ⟨old, ping, false, false⟩
    ∧ (run_monitor (.ok []) excl old ping now interval).storedRows = []
    ∧ (run_monitor (.ok []) excl old ping now interval).exitZero = true := by
  refine ⟨rfl, ?_, ?_⟩ <;> cases excl <;> rfl

/-- Claim C5, counterexample: swapping the two (distinct) records of a
collection changes the `hash_rows` digest, because `json.dumps` with
`sort_keys=True` sorts only the keys inside each object and preserves
the list order; the claimed permutation-invariance of the content hash
is false on the code. -/
theorem C5_counterexample :
    hash_rows [c5_r1, c5_r2] ≠ hash_rows [c5_r2, c5_r1] := by decide

/-- Claim C5 (amended): the content hash is a deterministic digest of
an order-sensitive serialization — collections with the same
serialization hash identically, but reordering distinct records
changes the serialization (and, as the counterexample shows, the
digest). -/
theorem C5_hash_of_serialization (l1 l2 : List Row) :
    (serialize_rows l1 = serialize_rows l2 → hash_rows l1 = hash_rows l2)
    ∧ serialize_rows [c5_r1, c5_r2] ≠ serialize_rows [c5_r2, c5_r1] := by
  constructor
  · intro h
    rw [hash_rows, hash_rows, h]
  · decide

/-- Claim C5 witness: the serialization-congruence applied to one
concrete collection. -/
theorem C5_witness : hash_rows [c5_r1] = hash_rows [c5_r1] :=
  (C5_hash_of_serialization [c5_r1] [c5_r1]).1 rfl

/-- Claim C6, counterexample: a record whose raw seats text changed
from `2 of 170` to `2 of 171` is in the changed partition although its
parsed open count (2), time, location and instructor are all
unchanged — line 464 compares the raw `seats` string, not the parsed
`open_now`, so the claimed characterization of `changed` is false on
the code. -/
theorem C6_counterexample :
    (c6_old, c6_new) ∈ changedL [c6_old] [c6_new]
    ∧ parse_open_seats c6_old.seats = parse_open_seats c6_new.seats
    ∧ c6_old.time = c6_new.time ∧ c6_old.loc = c6_new.loc
    ∧ c6_old.instr = c6_new.instr := by
  refine ⟨by decide, by decide, rfl, rfl, rfl⟩

/-- Claim C6 (amended): a (previous, current) pair is in the changed
partition exactly when the two records are stored under one identity
key in the respective keyed maps and at least one of the raw seats
text, time, location, instructor fields differs. -/
theorem C6_changed_characterization (oldRows newRows : List Row) (a b : Row) :
    (a, b) ∈ changedL oldRows newRows ↔
      ∃ k, lookupR (buildMap oldRows) k = some a
        ∧ lookupR (buildMap newRows) k = some b
        ∧ (a.seats, a.time, a.loc, a.instr) ≠ (b.seats, b.time, b.loc, b.instr) := by
  simpa [chTuple] using mem_changedL oldRows newRows a b

/-- Claim C6 witness: the characterization instantiated at the
concrete raw-text-only seats edit. -/
theorem C6_witness :
    ∃ k, lookupR (buildMap [c6_old]) k = some c6_old
      ∧ lookupR (buildMap [c6_new]) k = some c6_new
      ∧ (c6_old.seats, c6_old.time, c6_old.loc, c6_old.instr)
        ≠ (c6_new.seats, c6_new.time, c6_new.loc, c6_new.instr) :=
  (C6_changed_characterization [c6_old] [c6_new] c6_old c6_new).mp (by decide)

/-- Claim C7, counterexample: the spec's pattern `(\d+)\s*of\s*(\d+)`
accepts `2of170`, but the code's pattern `(\d+)\s+of\s+\d+` (line 64)
requires whitespace on both sides of `of` and captures only the open
count, so `parse_open_seats "2of170"` is `None`; the claimed pattern is
false on the code. -/
theorem C7_counterexample :
    parse_open_seats_spec "2of170" = some (2, 170)
    ∧ parse_open_seats "2of170" = none := by decide

/-- Claim C7 (amended): seat parsing returns the first capture of the
leftmost match of `(\d+)\s+of\s+\d+` (whitespace around `of` required,
only the open count captured, case-insensitive); the empty string and
any unmatched text yield `none`, and a row with an unparsable seats
text is still kept in the keyed map under its NRC. -/
theorem C7_parse_characterization (s : String) (n : Nat) :
    (parse_open_seats s = some n ↔
      ∃ i, matchSeatsAt (s.data.drop i) = some n
        ∧ ∀ j, j < i → matchSeatsAt (s.data.drop j) = none)
    ∧ parse_open_seats "" = none
    ∧ (∀ rows r, r ∈ rows → r.nrc ≠ "" →
        ∃ v, lookupR (buildMap rows) r.nrc = some v) := by
  refine ⟨?_, rfl, ?_⟩
  · rw [parse_open_seats]
    by_cases hs : s = ""
    · subst hs
      rw [if_pos rfl]
      constructor
      · intro h; cases h
      · rintro ⟨i, hi, _⟩
        rw [show ("" : String).data = [] from rfl, List.drop_nil] at hi
        cases hi
    · rw [if_neg hs]
      exact seats_search_iff s.data n
  · intro rows r hmem hnrc
    rw [buildMap_lookup_last rows r.nrc hnrc]
    have hm : r ∈ rows.filter (fun x => x.nrc = r.nrc) :=
      List.mem_filter.mpr ⟨hmem, by simp⟩
    have hne : rows.filter (fun x => x.nrc = r.nrc) ≠ [] :=
      List.ne_nil_of_mem hm
    rw [← Option.isSome_iff_exists, List.getLast?_isSome]
    exact hne

/-- Claim C7 witness: the leftmost-match characterization applied to a
concrete parsable seats text. -/
theorem C7_witness :
    ∃ i, matchSeatsAt (("a 2 of 170" : String).data.drop i) = some 2
      ∧ ∀ j, j < i → matchSeatsAt (("a 2 of 170" : String).data.drop j) = none :=
  (C7_parse_characterization "a 2 of 170" 2).1.mp (by decide)

/-- Claim C8, counterexample: when the Row Source yields two rows with
the same NRC, the persisted snapshot keeps both occurrences (and its
content hash covers both), while only the keyed map used for diffing
collapses to the last occurrence; the claim that the persisted record
set and hash retain only the last occurrence is false on the code. -/
theorem C8_counterexample :
    (run_monitor (.ok [c8_r1, c8_r2]) none [] 0 0 3600).storedRows = [c8_r1, c8_r2]
    ∧ [c8_r1, c8_r2] ≠ [c8_r2]
    ∧ hash_rows [c8_r1, c8_r2] ≠ hash_rows [c8_r2]
    ∧ lookupR (buildMap [c8_r1, c8_r2]) "12345" = some c8_r2 := by
  refine ⟨by decide, by decide, by decide, by decide⟩

/-- Claim C8 (amended): within one run, duplicate NRCs are resolved
last-write-wins in the keyed map used for diffing — looking up a
non-empty key yields the last collected row carrying it — while the
persisted snapshot stores the collected row list itself, every
occurrence included. -/
theorem C8_last_write_wins (rows : List Row) (k : String) (hk : k ≠ "")
    (old : List Row) (ping now interval : Int) :
    lookupR (buildMap rows) k = (rows.filter (fun r => r.nrc = k)).getLast?
    ∧ (run_monitor (.ok rows) none old ping now interval).storedRows = rows :=
  ⟨buildMap_lookup_last rows k hk, rfl⟩

/-- Claim C8 witness: last-write-wins at the concrete duplicated
NRC. -/
theorem C8_witness :
    lookupR (buildMap [c8_r1, c8_r2]) "12345"
      = ([c8_r1, c8_r2].filter (fun r => r.nrc = "12345")).getLast?
    ∧ (run_monitor (.ok [c8_r1, c8_r2]) none [] 0 0 3600).storedRows
      = [c8_r1, c8_r2] :=
  C8_last_write_wins [c8_r1, c8_r2] "12345" (by decide) [] 0 0 3600

/-- Claim C9, counterexample: two failures of the claimed ordering.
First, a record with a parsed open count of 0 does not sort before a
record with an unparsable count — the sort key
`-(x.get("_open_now") or -1)` of line 502 sends `0` through Python's
falsy `or` exactly like `None`, so both key as 1 and the NRC tie-break
puts the unparsable row `1111` before the zero row `2222`.  Second, a
displayed row the annotation pass skipped (here: empty NRC) has no
`_open_now` key at all and keys as 1, so its parsed count of 9 sorts
after a keyed row with parsed count 3, contradicting "descending by
open_now with nulls last". -/
theorem C9_counterexample :
    display_order [c9_zero, c9_null] = [("q", [(c9_null, true), (c9_zero, true)])]
    ∧ parse_open_seats c9_zero.seats = some 0
    ∧ parse_open_seats c9_null.seats = none
    ∧ c9_zero.qkey = c9_null.qkey
    ∧ display_order [c9_empty, c9_three]
      = [("q", [(c9_three, true), (c9_empty, false)])]
    ∧ parse_open_seats c9_empty.seats = some 9
    ∧ parse_open_seats c9_three.seats = some 3 := by
  refine ⟨by decide, by decide, by decide, rfl, by decide, by decide, by decide⟩

/-- Claim C9 (amended): the report is grouped by originating query in
first-appearance order, and each group is sorted (a permutation of the
group's annotated rows) ascending in the key pair
`(-(open_now or -1), nrc)`, where the `open_now` annotation exists only
on rows stored in the diff map (non-empty NRC, last occurrence of the
key): positive annotated counts descending first, then annotated zero,
annotated unparsable, and unannotated rows all keyed as 1 at the end
(zero does not precede null, and an unannotated row keys as 1 even with
a positive parsed count), ties broken by NRC ascending. -/
theorem C9_display_ordering (rows : List Row) :
    (∀ g ∈ display_order rows, List.Sorted display_le g.2
      ∧ g.2.Perm ((annotate rows).filter (fun p => p.1.qkey = g.1)))
    ∧ (display_order rows).map Prod.fst = group_keys rows
    ∧ open_key (some 0) = open_key none
    ∧ (∀ p : Row × Bool, p.2 = false → disp_key p = open_key none) := by
  refine ⟨?_, ?_, rfl, ?_⟩
  · intro g hg
    rcases List.mem_map.mp hg with ⟨q, _, rfl⟩
    exact ⟨List.sorted_insertionSort display_le _,
      List.perm_insertionSort display_le _⟩
  · rw [display_order, List.map_map]
    rw [show (Prod.fst ∘ fun q =>
        (q, sort_rows ((annotate rows).filter (fun p => p.1.qkey = q))))
      = id from rfl, List.map_id]
  · intro p hp
    rw [disp_key, hp]
    rfl

/-- Claim C9 witness: sortedness and permutation of the concrete
two-row group. -/
theorem C9_witness :
    List.Sorted display_le [(c9_null, true), (c9_zero, true)]
    ∧ [(c9_null, true), (c9_zero, true)].Perm
        ((annotate [c9_zero, c9_null]).filter (fun p => p.1.qkey = "q")) :=
  (C9_display_ordering [c9_zero, c9_null]).1 ("q", [(c9_null, true), (c9_zero, true)])
    (by decide)

/-- Claim C10, counterexample: a displayed record the annotation pass
skipped (empty NRC, so it is never stored in `new_map` and lines
468-483 never set `_status` on it) appears in the formatted message
with an empty marker prefix — `r.get("_status","")` at line 513 falls
back to the empty string — although its seats text parses to 9 > 0; so
"the marker is 🟢 iff open_now parsed > 0, else 🔴" is false of the
records in the message. -/
theorem C10_counterexample :
    display_order [c10_row] = [("q", [(c10_row, false)])]
    ∧ parse_open_seats c10_row.seats = some 9
    ∧ render_marker false c10_row.seats none = ""
    ∧ ("" : String) ≠ "🟢" ∧ ("" : String) ≠ "🔴" := by
  refine ⟨by decide, by decide, by decide, by decide, by decide⟩

/-- Claim C10 (amended): for the annotated records of the message
(those stored in the diff map: non-empty NRC, last occurrence), the
status marker of line 477 is 🟢 exactly when the seats text parsed to a
strictly positive count, an unparsable seats text gets the same 🔴 as a
parsed count of 0 with delta annotation "(same)", and the rendered
prefix of line 513 is exactly that marker; a displayed record outside
the diff map renders an empty prefix whatever its seats text says. -/
theorem C10_status_marker (seats : String) (prevO : Option Nat) :
    (row_status (parse_open_seats seats) = "🟢" ↔
      ∃ n, parse_open_seats seats = some n ∧ 0 < n)
    ∧ (parse_open_seats seats = none →
        row_status (parse_open_seats seats) = "🔴"
        ∧ row_status (some 0) = "🔴"
        ∧ delta_txt (delta_of (parse_open_seats seats) prevO) = "(same)")
    ∧ (∀ d, render_marker false seats d = "")
    ∧ render_marker true seats none = row_status (parse_open_seats seats) := by
  refine ⟨?_, ?_, fun d => rfl, ?_⟩
  · cases h : parse_open_seats seats with
    | none =>
      rw [row_status]
      constructor
      · intro hc; exact absurd hc (by decide)
      · rintro ⟨n, hn, _⟩; cases hn
    | some n =>
      rw [row_status]
      by_cases hn : 0 < n
      · rw [if_pos hn]
        exact ⟨fun _ => ⟨n, rfl, hn⟩, fun _ => rfl⟩
      · rw [if_neg hn]
        constructor
        · intro hc; exact absurd hc (by decide)
        · rintro ⟨m, hm, hmpos⟩
          injection hm with hm
          exact absurd (hm ▸ hmpos) hn
  · intro h
    rw [h]
    exact ⟨rfl, rfl, by cases prevO <;> rfl⟩
  · cases h : parse_open_seats seats with
    | none =>
      simp only [render_marker, h]
      decide
    | some n =>
      by_cases hn : 0 < n
      · simp only [render_marker, h, row_status, if_pos hn]
        decide
      · simp only [render_marker, h, row_status, if_neg hn]
        decide

/-- Claim C10 witness: the unparsable-seats branch at a concrete
text. -/
theorem C10_witness :
    row_status (parse_open_seats "TBD") = "🔴"
    ∧ row_status (some 0) = "🔴"
    ∧ delta_txt (delta_of (parse_open_seats "TBD") (some 5)) = "(same)" :=
  (C10_status_marker "TBD" (some 5)).2.1 (by decide)
